import Mathlib

/-!
Verification of the medtracker repository: the Medication / DoseLog / Note
data model, the adherence and dose-expectation calculator, and the HTTP
view layer (`medtrackerapp/views.py`, `medtrackerapp/serializers.py`).

The calculator itself lives in `medtrackerapp/models.py`, which is not part
of the source tree available here (only its tests and callers are); those
definitions are modelled from the specification and are marked as such in
their doc comments.  Everything else is a direct shallow embedding of the
Python source.
-/

namespace Medtracker

/-! ## Calendar dates and timestamps

Python `datetime.date` values are triples (year, month, day), compared
lexicographically; `date.fromisoformat` accepts exactly `YYYY-MM-DD` and
validates the calendar.  Python `datetime` timestamps are modelled as a
calendar date plus a time-of-day; `order_by("taken_at")` and
`taken_at__date` comparisons only need this ordering and projection. -/

structure CalDate where
  year : Int
  month : Nat
  day : Nat
deriving DecidableEq, Repr

/-- Lexicographic key of a calendar date: Python compares dates by
(year, month, day) componentwise. -/
def CalDate.key (d : CalDate) : Lex (Int × Lex (Nat × Nat)) :=
  toLex (d.year, toLex (d.month, d.day))

/-- Python `d1 <= d2` on dates. -/
def CalDate.le (a b : CalDate) : Prop := a.key ≤ b.key

instance : DecidableRel CalDate.le := fun a b =>
  inferInstanceAs (Decidable (a.key ≤ b.key))

/-- Python leap-year rule (`calendar.isleap`). -/
def isLeap (y : Int) : Bool :=
  (y % 4 == 0 && y % 100 != 0) || (y % 400 == 0)

/-- Days in a month of the proleptic Gregorian calendar. -/
def daysInMonth (y : Int) (m : Nat) : Nat :=
  if m = 2 then (if isLeap y then 29 else 28)
  else if m = 4 ∨ m = 6 ∨ m = 9 ∨ m = 11 then 30
  else 31

/-- Days in all months of year `y` strictly before month `m`. -/
def daysBeforeMonth (y : Int) (m : Nat) : Nat :=
  ((List.range m).filter (fun k => 1 ≤ k)).foldl (fun acc k => acc + daysInMonth y k) 0

/-- Days before January 1 of year `y`, counted from the proleptic Gregorian
epoch, as in Python `date.toordinal`. -/
def daysBeforeYear (y : Int) : Int :=
  let p := y - 1
  365 * p + p.fdiv 4 - p.fdiv 100 + p.fdiv 400

/-- Python `date.toordinal`: day number with 0001-01-01 mapped to 1.
Subtracting two dates (`(end - start).days`) is the difference of
ordinals. -/
def CalDate.toOrdinal (d : CalDate) : Int :=
  daysBeforeYear d.year + daysBeforeMonth d.year d.month + d.day

/-- Python `(b - a).days` on dates. -/
def dateDiffDays (b a : CalDate) : Int := b.toOrdinal - a.toOrdinal

/-- A timestamp: calendar date plus seconds into the day.  `tsDate` below is
Python `datetime.date()`. -/
structure Timestamp where
  date : CalDate
  secondsInDay : Nat
deriving DecidableEq, Repr

def Timestamp.key (t : Timestamp) : Lex ((Lex (Int × Lex (Nat × Nat))) × Nat) :=
  toLex (t.date.key, t.secondsInDay)

/-- Python `t1 <= t2` on timestamps (chronological order). -/
def Timestamp.le (a b : Timestamp) : Prop := a.key ≤ b.key

instance : DecidableRel Timestamp.le := fun a b =>
  inferInstanceAs (Decidable (a.key ≤ b.key))

instance : IsTotal Timestamp Timestamp.le :=
  ⟨fun a b => le_total a.key b.key⟩

instance : IsTrans Timestamp Timestamp.le :=
  ⟨fun _ _ _ hab hbc => le_trans hab hbc⟩

/-! ## Data model (`medtrackerapp/models.py`, fields per spec section 3) -/

structure Medication where
  id : Nat
  name : String
  dosage_mg : Nat
  prescribed_per_day : Nat
deriving DecidableEq, Repr

structure DoseLog where
  id : Nat
  medication : Nat
  taken_at : Timestamp
  was_taken : Bool
deriving DecidableEq, Repr

structure Note where
  id : Nat
  medication : Nat
  text : String
  date : Timestamp
deriving DecidableEq, Repr

/-! ## Rounding

Python `round(x, 2)` on the rationals the calculator produces; modelled as
rounding `100 * x` to the nearest integer (Mathlib `round`, halves up — the
spec only says "rounded to 2 decimal places"). -/

def round2 (q : ℚ) : ℚ := (round (q * 100) : ℚ) / 100

/-! ## The adherence calculator

`medtrackerapp/models.py` is absent from the available source; these three
operations are modelled from spec section 4.1. -/

inductive CalcError where
  | invalidArgument (msg : String)
  | invalidSchedule (msg : String)
  | invalidRange (msg : String)
deriving DecidableEq, Repr

/-- Message carried by a calculator error (Python `str(e)` on the raised
`ValueError`). -/
def CalcError.msg : CalcError → String
  | .invalidArgument m => m
  | .invalidSchedule m => m
  | .invalidRange m => m

/-- Number of logs in `logs` with `was_taken=True`. -/
def takenCount (logs : List DoseLog) : Nat :=
  (logs.filter (fun l => l.was_taken)).length

/-- Modelled from the spec: `Medication.adherence_rate` of the missing
`medtrackerapp/models.py`.  Zero logs give `0.0`; otherwise
`100 * taken / total` rounded to 2 decimal places (spec section 4.1). -/
def adherence_rate (logs : List DoseLog) : ℚ :=
  if logs.length = 0 then 0
  else round2 (100 * (takenCount logs : ℚ) / (logs.length : ℚ))

/-- True when the date of `t` lies in the inclusive range `[s, e]`. -/
def inDateRange (s e : CalDate) (t : Timestamp) : Bool :=
  decide (CalDate.le s t.date) && decide (CalDate.le t.date e)

/-- Modelled from the spec: `Medication.adherence_rate_over_period` of the
missing `medtrackerapp/models.py` (spec section 4.1).  Fails with an
InvalidRange error when `start_date > end_date`; otherwise the expected
count is `((end - start).days + 1) * prescribed_per_day` and the result is
`round(100 * taken / expected, 2)` with rational (total) division. -/
def adherence_rate_over_period (m : Medication) (logs : List DoseLog)
    (start_date end_date : CalDate) : Except CalcError ℚ :=
  if ¬ CalDate.le start_date end_date then
    .error (.invalidRange "start_date must be before or equal to end_date")
  else
    let expected : Int := (dateDiffDays end_date start_date + 1) * m.prescribed_per_day
    let taken : Nat :=
      (logs.filter (fun l => l.was_taken && inDateRange start_date end_date l.taken_at)).length
    .ok (round2 (100 * (taken : ℚ) / (expected : ℚ)))

/-- Modelled from the spec: `Medication.expected_doses` of the missing
`medtrackerapp/models.py` (spec section 4.1).  Precondition 1 (`days > 0`)
is checked before precondition 2 (`prescribed_per_day > 0`), following
their order in the spec. -/
def expected_doses (m : Medication) (days : Int) : Except CalcError Int :=
  if days ≤ 0 then .error (.invalidArgument "days must be positive")
  else if m.prescribed_per_day = 0 then
    .error (.invalidSchedule "medication has no valid dosing schedule")
  else .ok (days * m.prescribed_per_day)

/-! ## Python primitives used by the view layer -/

/-- Value of a decimal digit string (used only on all-digit lists). -/
def digitsToNat (cs : List Char) : Nat :=
  cs.foldl (fun a c => 10 * a + (c.toNat - 48)) 0

/-- A nonempty all-digit character list, or `none`. -/
def decDigits? (cs : List Char) : Option Nat :=
  if cs ≠ [] ∧ cs.all Char.isDigit then some (digitsToNat cs) else none

/-- Python `str.strip()`: surrounding whitespace removed. -/
def pyStrip (s : String) : String :=
  ⟨((s.data.dropWhile Char.isWhitespace).reverse.dropWhile Char.isWhitespace).reverse⟩

/-- Python `int(s)` on a string: optional surrounding whitespace, an optional
sign, then decimal digits; anything else raises `ValueError`, modelled as
`none`.  (Digit-group underscores, accepted by Python 3, are not modelled.) -/
def pyInt? (s : String) : Option Int :=
  let cs := (s.data.dropWhile Char.isWhitespace).reverse.dropWhile Char.isWhitespace |>.reverse
  match cs with
  | [] => none
  | c :: rest =>
    if c = '-' then (decDigits? rest).map (fun n => -(n : Int))
    else if c = '+' then (decDigits? rest).map (fun n => (n : Int))
    else (decDigits? cs).map (fun n => (n : Int))

/-- Python `date.fromisoformat`: exactly `YYYY-MM-DD`, with the year in
`[1, 9999]`, the month in `[1, 12]` and the day valid for that month;
anything else raises `ValueError`, modelled as `none`. -/
def fromisoformat? (s : String) : Option CalDate :=
  match s.data with
  | [y1, y2, y3, y4, h1, mo1, mo2, h2, d1, d2] =>
    if y1.isDigit && y2.isDigit && y3.isDigit && y4.isDigit && h1 = '-' &&
        mo1.isDigit && mo2.isDigit && h2 = '-' && d1.isDigit && d2.isDigit then
      let y : Nat := digitsToNat [y1, y2, y3, y4]
      let mo : Nat := digitsToNat [mo1, mo2]
      let d : Nat := digitsToNat [d1, d2]
      if 1 ≤ y ∧ 1 ≤ mo ∧ mo ≤ 12 ∧ 1 ≤ d ∧ d ≤ daysInMonth y mo then
        some ⟨y, mo, d⟩
      else none
    else none
  | _ => none

/-- A Python value, as far as the view layer inspects one: `None`, booleans,
integers, strings, lists and string-keyed dicts. -/
inductive PyValue where
  | pyNone
  | pyBool (b : Bool)
  | pyInt (n : Int)
  | pyStr (s : String)
  | pyList (xs : List PyValue)
  | pyDict (entries : List (String × PyValue))
deriving Repr

/-- Python truthiness of a value. -/
def PyValue.truthy : PyValue → Bool
  | .pyNone => false
  | .pyBool b => b
  | .pyInt n => n != 0
  | .pyStr s => !s.isEmpty
  | .pyList xs => !xs.isEmpty
  | .pyDict es => !es.isEmpty

/-- Python `isinstance(v, dict)`. -/
def PyValue.isDict : PyValue → Bool
  | .pyDict _ => true
  | _ => false

/-- Python `v.get(k)` on a dict (`None` when the key is absent); `None` on
non-dicts, where the view never calls it. -/
def PyValue.getKey : PyValue → String → PyValue
  | .pyDict es, k =>
    match es.find? (fun p => p.1 = k) with
    | some p => p.2
    | none => .pyNone
  | _, _ => .pyNone

/-- Python `k in v` for a dict: the payload contains the key. -/
def PyValue.hasKey : PyValue → String → Bool
  | .pyDict es, k => es.any (fun p => p.1 = k)
  | _, _ => false

/-! ## MedicationViewSet (`medtrackerapp/views.py`) -/

/-- Response of the `/info` action: the payload is passed through, only the
status varies. -/
structure InfoResponse where
  data : PyValue
  status : Nat
deriving Repr

/-- `MedicationViewSet.get_external_info` (views.py lines 17-24): 502 when
the external payload is a dict whose `error` entry is truthy, 200
passthrough otherwise.  The external payload itself is an input: the
drug-information service is a black-box collaborator. -/
def get_external_info (data : PyValue) : InfoResponse :=
  if data.isDict && (data.getKey "error").truthy then ⟨data, 502⟩
  else ⟨data, 200⟩

/-- Body of an `/expected-doses` response: an error dict or the success
payload `{medication_id, days, expected_doses}`. -/
inductive EDData where
  | err (error : String)
  | payload (medication_id : Nat) (days : Int) (expected : Int)
deriving DecidableEq, Repr

structure EDResponse where
  data : EDData
  status : Nat
deriving DecidableEq, Repr

/-- `MedicationViewSet.expected_doses` (views.py lines 26-73).
`self.get_object()` resolves `pk` against the medication store and raises
Http404 first; `request.query_params.get("days")` is `days_param`; the
Python test `if not days_param` is true for both a missing and an empty
parameter.  The calculator call is the spec-modelled `expected_doses`;
a calculator error is caught and reported as 400 with its message. -/
def expected_doses_view (meds : List Medication) (pk : Nat)
    (days_param : Option String) : EDResponse :=
  match meds.find? (fun m => m.id = pk) with
  | none => ⟨.err "No Medication matches the given query.", 404⟩
  | some medication =>
    match days_param with
    | none => ⟨.err "Missing required parameter: days", 400⟩
    | some dp =>
      if dp.isEmpty then ⟨.err "Missing required parameter: days", 400⟩
      else
        match pyInt? dp with
        | none => ⟨.err "days must be a valid integer", 400⟩
        | some days =>
          if days ≤ 0 then ⟨.err "days must be a positive integer", 400⟩
          else
            match expected_doses medication days with
            | .ok expected => ⟨.payload medication.id days expected, 200⟩
            | .error e => ⟨.err e.msg, 400⟩

/-! ## DoseLogViewSet (`medtrackerapp/views.py`) -/

/-- The `order_by("taken_at")` relation on dose logs. -/
def byTakenAt (a b : DoseLog) : Prop := Timestamp.le a.taken_at b.taken_at

instance : DecidableRel byTakenAt := fun a b =>
  inferInstanceAs (Decidable (Timestamp.le a.taken_at b.taken_at))

instance : IsTotal DoseLog byTakenAt :=
  ⟨fun a b => IsTotal.total (r := Timestamp.le) a.taken_at b.taken_at⟩

instance : IsTrans DoseLog byTakenAt :=
  ⟨fun _ _ _ hab hbc => IsTrans.trans (r := Timestamp.le) _ _ _ hab hbc⟩

/-- Response of the dose-log `/filter` action: an error message or the
serialized list of logs. -/
structure DLFilterResponse where
  data : Except String (List DoseLog)
  status : Nat
deriving Repr

/-- `DoseLogViewSet.filter_by_date` (views.py lines 83-116).  The Python
test `if not start_date_str or not end_date_str` is true for missing and
for empty parameters; both dates must parse with `date.fromisoformat`;
`start_date > end_date` is rejected; otherwise the queryset is filtered to
logs whose `taken_at` date lies in `[start, end]` and ordered by
`taken_at` ascending. -/
def filter_by_date (logs : List DoseLog) (start_param end_param : Option String) :
    DLFilterResponse :=
  let sstr := start_param.getD ""
  let estr := end_param.getD ""
  if sstr.isEmpty || estr.isEmpty then
    ⟨.error "Both 'start' and 'end' parameters are required", 400⟩
  else
    match fromisoformat? sstr, fromisoformat? estr with
    | some s, some e =>
      if ¬ CalDate.le s e then
        ⟨.error "start_date must be before or equal to end_date", 400⟩
      else
        ⟨.ok ((logs.filter (fun l => inDateRange s e l.taken_at)).insertionSort byTakenAt), 200⟩
    | _, _ => ⟨.error "Invalid date format. Use YYYY-MM-DD", 400⟩

/-! ## NoteViewSet and NoteSerializer -/

/-- `NoteSerializer.validate_text` (serializers.py lines 43-49): empty or
whitespace-only text is rejected, raw length above 1000 is rejected, and
the accepted value is the stripped text. -/
def validate_text (value : String) : Except String String :=
  if value.isEmpty || (pyStrip value).isEmpty then .error "Note text cannot be empty"
  else if value.length > 1000 then .error "Note text is too long (max 1000 characters)"
  else .ok (pyStrip value)

/-- `NoteViewSet.get_queryset` (views.py lines 141-154): with no
`medication` parameter, or an empty one (Python falsiness), the base
queryset is returned; a parameter that parses with `int` filters by
`medication_id`; one that raises `ValueError` yields the empty queryset. -/
def note_get_queryset (notes : List Note) (medication_param : Option String) : List Note :=
  match medication_param with
  | none => notes
  | some s =>
    if s.isEmpty then notes
    else
      match pyInt? s with
      | some mid => notes.filter (fun n => (n.medication : Int) = mid)
      | none => []

/-- Body of the fixed 405 response of `NoteViewSet.update` and
`NoteViewSet.partial_update`. -/
structure NoteUpdateResponse where
  detail : String
  error : String
  status : Nat
deriving DecidableEq, Repr

/-- `NoteViewSet.update` (views.py lines 156-164): PUT on a note item.  The
handler returns the fixed 405 response without touching `pk`, the payload
or the store; the store is threaded through to make that explicit. -/
def note_update (notes : List Note) (pk : Nat) (payload : List (String × String)) :
    NoteUpdateResponse × List Note :=
  (⟨"Method 'PUT' not allowed.", "Notes cannot be updated once created.", 405⟩, notes)

/-- `NoteViewSet.partial_update` (views.py lines 166-174): PATCH on a note
item, same fixed 405 response. -/
def note_partial_update (notes : List Note) (pk : Nat) (payload : List (String × String)) :
    NoteUpdateResponse × List Note :=
  (⟨"Method 'PATCH' not allowed.", "Notes cannot be updated once created.", 405⟩, notes)

/-! ## Facts about rounding -/

theorem round2_mono {a b : ℚ} (h : a ≤ b) : round2 a ≤ round2 b := by
  unfold round2
  have hz : (round (a * 100) : ℤ) ≤ round (b * 100) := by
    simp only [round_eq]
    exact Int.floor_mono (by linarith)
  have hq : ((round (a * 100) : ℤ) : ℚ) ≤ ((round (b * 100) : ℤ) : ℚ) :=
    Int.cast_le.mpr hz
  linarith

theorem round2_zero : round2 0 = 0 := by norm_num [round2]

theorem round2_hundred : round2 100 = 100 := by
  norm_num [round2, round_eq]

/-- Fixtures shared by concrete evaluations below. -/
def ts0 : Timestamp := ⟨⟨2024, 1, 2⟩, 3600⟩

def aspirin : Medication := ⟨1, "Aspirin", 100, 2⟩

def twoLogs : List DoseLog := [⟨1, 1, ts0, true⟩, ⟨2, 1, ts0, false⟩]

/-! ## C1 -/

/-- C1: `adherence_rate` returns 0.0 on zero logs, otherwise
`round(100 * taken / total, 2)`, and the result always lies in
`[0, 100]`. -/
theorem adherence_rate_correct (logs : List DoseLog) :
    (logs.length = 0 → adherence_rate logs = 0) ∧
    (logs.length ≠ 0 →
      adherence_rate logs = round2 (100 * (takenCount logs : ℚ) / (logs.length : ℚ))) ∧
    0 ≤ adherence_rate logs ∧ adherence_rate logs ≤ 100 := by
  refine ⟨fun h => by simp [adherence_rate, h], fun h => by simp [adherence_rate, h], ?_, ?_⟩
  all_goals by_cases h : logs.length = 0
  case pos => simp [adherence_rate, h]
  case pos => simp [adherence_rate, h]
  all_goals
    have hn : (0 : ℚ) < (logs.length : ℚ) := by
      exact_mod_cast Nat.pos_of_ne_zero h
    have ht : ((takenCount logs : ℚ)) ≤ (logs.length : ℚ) := by
      exact_mod_cast List.length_filter_le _ logs
    have ht0 : (0 : ℚ) ≤ (takenCount logs : ℚ) := by positivity
    have hq0 : (0 : ℚ) ≤ 100 * (takenCount logs : ℚ) / (logs.length : ℚ) := by positivity
    have hq1 : 100 * (takenCount logs : ℚ) / (logs.length : ℚ) ≤ 100 := by
      rw [div_le_iff hn]
      nlinarith
    simp only [adherence_rate, h, if_false]
  · calc (0 : ℚ) = round2 0 := round2_zero.symm
      _ ≤ _ := round2_mono hq0
  · calc round2 (100 * (takenCount logs : ℚ) / (logs.length : ℚ))
        ≤ round2 100 := round2_mono hq1
      _ = 100 := round2_hundred

/-- C1 witness: the two test logs (one taken, one missed) give 50.0, and the
bounds hold there. -/
theorem adherence_rate_correct_witness :
    adherence_rate twoLogs = 50 ∧ 0 ≤ adherence_rate twoLogs ∧ adherence_rate twoLogs ≤ 100 := by
  refine ⟨?_, (adherence_rate_correct twoLogs).2.2.1, (adherence_rate_correct twoLogs).2.2.2⟩
  have h := (adherence_rate_correct twoLogs).2.1 (by decide)
  rw [h, show takenCount twoLogs = 1 from by decide, show twoLogs.length = 2 from by decide]
  norm_num [round2, round_eq]

/-! ## C2 -/

/-- C2: `adherence_rate_over_period` fails with an InvalidRange error when
`start_date > end_date`; otherwise it returns
`round(100 * taken / expected, 2)` where `expected` is the inclusive day
count times `prescribed_per_day` and `taken` counts the was-taken logs
dated within the range. -/
theorem adherence_rate_over_period_correct (m : Medication) (logs : List DoseLog)
    (start_date end_date : CalDate) :
    (¬ CalDate.le start_date end_date →
      adherence_rate_over_period m logs start_date end_date =
        .error (.invalidRange "start_date must be before or equal to end_date")) ∧
    (CalDate.le start_date end_date →
      adherence_rate_over_period m logs start_date end_date =
        .ok (round2 (100 *
          (((logs.filter (fun l => l.was_taken && inDateRange start_date end_date l.taken_at)).length : ℚ)) /
          (((dateDiffDays end_date start_date + 1) * m.prescribed_per_day : ℤ) : ℚ)))) := by
  constructor
  · intro h
    simp [adherence_rate_over_period, h]
  · intro h
    simp [adherence_rate_over_period, h]

/-- Fixtures for the C2 witness: the reference test of
`test_adherence_rate_over_period_valid` (3-day range, schedule 2/day,
4 of 6 logs taken). -/
def periodStart : CalDate := ⟨2024, 1, 1⟩

def periodEnd : CalDate := ⟨2024, 1, 3⟩

def sixLogs : List DoseLog :=
  [⟨1, 1, ts0, true⟩, ⟨2, 1, ts0, true⟩, ⟨3, 1, ts0, false⟩,
   ⟨4, 1, ts0, true⟩, ⟨5, 1, ts0, false⟩, ⟨6, 1, ts0, true⟩]

/-- C2 witness: the reference example evaluates to 66.67. -/
theorem adherence_rate_over_period_correct_witness :
    adherence_rate_over_period aspirin sixLogs periodStart periodEnd = .ok (6667 / 100) := by
  have h := (adherence_rate_over_period_correct aspirin sixLogs periodStart periodEnd).2 (by decide)
  rw [h]
  rw [show (sixLogs.filter
      (fun l => l.was_taken && inDateRange periodStart periodEnd l.taken_at)).length = 4 from by decide]
  rw [show (dateDiffDays periodEnd periodStart + 1) * aspirin.prescribed_per_day = 6 from by decide]
  norm_num [round2, round_eq]

/-! ## C3 -/

/-- C3 counterexample: with `prescribed_per_day = 0` and `days = -1` the
days check fires first, so the result is the InvalidArgument error, not
the InvalidSchedule error the claim requires for a zero schedule
"regardless of days". -/
theorem expected_doses_claim_counterexample :
    expected_doses ⟨2, "Bad", 10, 0⟩ (-1) = .error (.invalidArgument "days must be positive") ∧
    expected_doses ⟨2, "Bad", 10, 0⟩ (-1) ≠
      .error (.invalidSchedule "medication has no valid dosing schedule") := by
  refine ⟨rfl, fun h => ?_⟩
  have h2 : CalcError.invalidArgument "days must be positive" =
      CalcError.invalidSchedule "medication has no valid dosing schedule" := by
    have h1 : (Except.error (CalcError.invalidArgument "days must be positive") :
        Except CalcError Int) =
        .error (.invalidSchedule "medication has no valid dosing schedule") := h
    exact Except.error.inj h1
  simp at h2

/-- C3 (amended): `expected_doses` fails with InvalidArgument
("days must be positive") for every `days ≤ 0`; for `days > 0` it fails
with InvalidSchedule ("medication has no valid dosing schedule") when
`prescribed_per_day = 0`, and returns `days * prescribed_per_day`
otherwise. -/
theorem expected_doses_correct (m : Medication) (days : Int) :
    (days ≤ 0 → expected_doses m days = .error (.invalidArgument "days must be positive")) ∧
    (0 < days → m.prescribed_per_day = 0 →
      expected_doses m days = .error (.invalidSchedule "medication has no valid dosing schedule")) ∧
    (0 < days → 0 < m.prescribed_per_day →
      expected_doses m days = .ok (days * m.prescribed_per_day)) := by
  refine ⟨fun h => by simp [expected_doses, h], fun h hp => ?_, fun h hp => ?_⟩
  · simp [expected_doses, h, hp, not_le.mpr h]
  · have : m.prescribed_per_day ≠ 0 := Nat.pos_iff_ne_zero.mp hp
    simp [expected_doses, not_le.mpr h, this]

/-- C3 witness: `expected_doses(3)` with schedule 2/day is 6, per the
reference test. -/
theorem expected_doses_correct_witness : expected_doses aspirin 3 = .ok 6 := by
  have h := (expected_doses_correct aspirin 3).2.2 (by decide) (by decide)
  rw [h, show (3 : ℤ) * (aspirin.prescribed_per_day : ℤ) = 6 from by decide]

/-! ## C4 -/

/-- C4: on the expected-doses endpoint, an unknown medication id yields 404
independently of the `days` parameter (the lookup runs first); with a known
medication, a missing or empty `days`, an unparseable `days`, a parseable
`days ≤ 0`, and a calculator failure each yield 400 with the corresponding
error message. -/
theorem expected_doses_view_correct (meds : List Medication) (pk : Nat)
    (days_param : Option String) :
    (meds.find? (fun m => m.id = pk) = none →
      (expected_doses_view meds pk days_param).status = 404 ∧
      ∀ dp, expected_doses_view meds pk days_param = expected_doses_view meds pk dp) ∧
    (∀ medication, meds.find? (fun m => m.id = pk) = some medication →
      (days_param = none ∨ days_param = some "" →
        expected_doses_view meds pk days_param =
          ⟨.err "Missing required parameter: days", 400⟩) ∧
      (∀ s, days_param = some s → ¬ s.isEmpty = true → pyInt? s = none →
        expected_doses_view meds pk days_param =
          ⟨.err "days must be a valid integer", 400⟩) ∧
      (∀ s days, days_param = some s → ¬ s.isEmpty = true → pyInt? s = some days → days ≤ 0 →
        expected_doses_view meds pk days_param =
          ⟨.err "days must be a positive integer", 400⟩) ∧
      (∀ s days err, days_param = some s → ¬ s.isEmpty = true → pyInt? s = some days →
        0 < days → expected_doses medication days = .error err →
        expected_doses_view meds pk days_param = ⟨.err err.msg, 400⟩)) := by
  constructor
  · intro hfind
    constructor
    · simp [expected_doses_view, hfind]
    · intro dp
      simp [expected_doses_view, hfind]
  · intro medication hfind
    refine ⟨?_, ?_, ?_, ?_⟩
    · rintro (h | h) <;> subst h <;>
        simp [expected_doses_view, hfind, String.isEmpty]
    · intro s hdp hne hparse
      subst hdp
      simp [expected_doses_view, hfind, hne, hparse]
    · intro s days hdp hne hparse hle
      subst hdp
      simp [expected_doses_view, hfind, hne, hparse, hle]
    · intro s days err hdp hne hparse hpos herr
      subst hdp
      simp [expected_doses_view, hfind, hne, hparse, not_le.mpr hpos, herr]

/-- C4 witness: with the fixture medication, `days=0` is parseable but not
positive, so the endpoint answers 400 with the positive-integer message. -/
theorem expected_doses_view_correct_witness :
    expected_doses_view [aspirin] 1 (some "0") =
      ⟨.err "days must be a positive integer", 400⟩ :=
  ((expected_doses_view_correct [aspirin] 1 (some "0")).2 aspirin (by decide)).2.2.1
    "0" 0 rfl (by decide) (by decide) (by decide)

/-! ## C5 -/

/-- C5: on the dose-log date-range filter, a missing or empty parameter, a
parameter that is not a valid `YYYY-MM-DD` date, and a start after the end
each yield a client error; otherwise the endpoint answers 200 with exactly
the logs whose `taken_at` date lies in the inclusive range, ordered by
`taken_at` ascending. -/
theorem filter_by_date_correct (logs : List DoseLog) (sp ep : Option String) :
    ((sp.getD "").isEmpty = true ∨ (ep.getD "").isEmpty = true →
      (filter_by_date logs sp ep).status = 400) ∧
    (fromisoformat? (sp.getD "") = none ∨ fromisoformat? (ep.getD "") = none →
      (filter_by_date logs sp ep).status = 400) ∧
    (∀ s e, fromisoformat? (sp.getD "") = some s → fromisoformat? (ep.getD "") = some e →
      ¬ CalDate.le s e → (filter_by_date logs sp ep).status = 400) ∧
    (∀ s e, fromisoformat? (sp.getD "") = some s → fromisoformat? (ep.getD "") = some e →
      CalDate.le s e →
      (filter_by_date logs sp ep).status = 200 ∧
      ∃ out, (filter_by_date logs sp ep).data = .ok out ∧
        List.Perm out (logs.filter (fun l => inDateRange s e l.taken_at)) ∧
        out.Sorted byTakenAt) := by
  have hempty : ∀ u : String, u.isEmpty = true → fromisoformat? u = none := by
    intro u hu
    rw [(String.isEmpty_iff u).mp hu]
    decide
  have hnonempty : ∀ (u : String) (d : CalDate), fromisoformat? u = some d →
      u.isEmpty = false := by
    intro u d hp
    rcases hiso : u.isEmpty with _ | _
    · rfl
    · rw [hempty u hiso] at hp
      exact absurd hp (by simp)
  refine ⟨?_, ?_, ?_, ?_⟩
  · intro h
    have hb : ((sp.getD "").isEmpty || (ep.getD "").isEmpty) = true := by
      rcases h with h | h <;> simp [h]
    simp [filter_by_date, hb]
  · intro h
    by_cases hb : ((sp.getD "").isEmpty || (ep.getD "").isEmpty) = true
    · simp [filter_by_date, hb]
    · cases hs : fromisoformat? (sp.getD "") <;> cases he : fromisoformat? (ep.getD "") <;>
        simp_all [filter_by_date]
  · intro s e hs he hlt
    by_cases hb : ((sp.getD "").isEmpty || (ep.getD "").isEmpty) = true
    · simp [filter_by_date, hb]
    · simp [filter_by_date, hb, hs, he, hlt]
  · intro s e hs he hle
    have hb : ((sp.getD "").isEmpty || (ep.getD "").isEmpty) = false := by
      rw [hnonempty _ _ hs, hnonempty _ _ he]
      rfl
    refine ⟨by simp [filter_by_date, hb, hs, he, hle], ?_⟩
    refine ⟨(logs.filter (fun l => inDateRange s e l.taken_at)).insertionSort byTakenAt,
      by simp [filter_by_date, hb, hs, he, hle], ?_, ?_⟩
    · exact List.perm_insertionSort byTakenAt _
    · exact List.sorted_insertionSort byTakenAt _

/-- C5 witness: a one-log store and the range 2024-01-01..2024-01-03
answer 200 with that log. -/
theorem filter_by_date_correct_witness :
    (filter_by_date [⟨1, 1, ts0, true⟩] (some "2024-01-01") (some "2024-01-03")).status = 200 := by
  have h := ((filter_by_date_correct [⟨1, 1, ts0, true⟩] (some "2024-01-01")
      (some "2024-01-03")).2.2.2 ⟨2024, 1, 1⟩ ⟨2024, 1, 3⟩ (by decide) (by decide) (by decide)).1
  exact h

/-! ## C6 -/

theorem pyStrip_length_le (s : String) : (pyStrip s).length ≤ s.length := by
  show (((s.data.dropWhile Char.isWhitespace).reverse.dropWhile
      Char.isWhitespace).reverse).length ≤ s.data.length
  rw [List.length_reverse]
  have h1 := (List.dropWhile_sublist
    (l := (s.data.dropWhile Char.isWhitespace).reverse) Char.isWhitespace).length_le
  rw [List.length_reverse] at h1
  have h2 := (List.dropWhile_sublist (l := s.data) Char.isWhitespace).length_le
  omega

theorem pyStrip_of_all_ws (s : String) (h : s.data.all Char.isWhitespace = true) :
    (pyStrip s).isEmpty = true := by
  have hd : s.data.dropWhile Char.isWhitespace = [] := by
    rw [List.dropWhile_eq_nil_iff]
    intro x hx
    exact List.all_eq_true.mp h x hx
  have h2 : pyStrip s = ⟨[]⟩ := by simp [pyStrip, hd]
  rw [h2]
  rfl

/-- C6: `validate_text` rejects every text whose characters are all
whitespace (in particular the empty text), rejects every text whose
stripped form exceeds 1000 characters, and every accepted text is stored
as the submitted text with surrounding whitespace stripped. -/
theorem validate_text_correct (value : String) :
    (value.data.all Char.isWhitespace = true → ∃ msg, validate_text value = .error msg) ∧
    (1000 < (pyStrip value).length → ∃ msg, validate_text value = .error msg) ∧
    (∀ t, validate_text value = .ok t → t = pyStrip value) := by
  refine ⟨?_, ?_, ?_⟩
  · intro h
    exact ⟨"Note text cannot be empty", by simp [validate_text, pyStrip_of_all_ws value h]⟩
  · intro h
    have h2 : 1000 < value.length := lt_of_lt_of_le h (pyStrip_length_le value)
    unfold validate_text
    by_cases hc : (value.isEmpty || (pyStrip value).isEmpty) = true
    · rw [if_pos hc]
      exact ⟨_, rfl⟩
    · rw [if_neg hc, if_pos h2]
      exact ⟨_, rfl⟩
  · intro t ht
    unfold validate_text at ht
    split at ht
    · exact absurd ht (by simp)
    · split at ht
      · exact absurd ht (by simp)
      · exact (Except.ok.inj ht).symm

/-- C6 witness: the text with surrounding blanks is accepted and stored
stripped. -/
theorem validate_text_correct_witness :
    validate_text "  hello  " = .ok "hello" ∧ "hello" = pyStrip "  hello  " := by
  have h1 : validate_text "  hello  " = .ok "hello" := by rfl
  exact ⟨h1, (validate_text_correct "  hello  ").2.2 "hello" h1⟩

/-! ## C7 -/

/-- C7: PUT (`update`) and PATCH (`partial_update`) on a note are both
answered with the fixed 405 response carrying the explanatory message,
for every store, id and payload, and the store is unchanged. -/
theorem note_update_method_not_allowed (notes : List Note) (pk : Nat)
    (payload : List (String × String)) :
    (note_update notes pk payload).1.status = 405 ∧
    (note_update notes pk payload).1.error = "Notes cannot be updated once created." ∧
    (note_update notes pk payload).2 = notes ∧
    (note_partial_update notes pk payload).1.status = 405 ∧
    (note_partial_update notes pk payload).1.error = "Notes cannot be updated once created." ∧
    (note_partial_update notes pk payload).2 = notes :=
  ⟨rfl, rfl, rfl, rfl, rfl, rfl⟩

/-! ## C8 -/

/-- External payload carrying an `error` key bound to a falsy value. -/
def errEmptyPayload : PyValue := .pyDict [("error", .pyStr "")]

/-- External payload carrying an `error` key bound to a truthy value. -/
def errPayload : PyValue := .pyDict [("error", .pyStr "API unavailable")]

/-- C8 counterexample: the payload `{"error": ""}` contains an `error` key,
yet the view's truthiness test fails and the status is 200, not the 502
the claim requires for every payload containing the key. -/
theorem get_external_info_claim_counterexample :
    errEmptyPayload.hasKey "error" = true ∧
    (get_external_info errEmptyPayload).status = 200 ∧
    ¬ (get_external_info errEmptyPayload).status = 502 := by
  refine ⟨by decide, rfl, by decide⟩

/-- C8 (amended): the `/info` response is 502 carrying the payload exactly
when the payload is a dict whose `error` entry is truthy; any other
payload — including a dict whose `error` entry is falsy — is passed
through unchanged with 200. -/
theorem get_external_info_correct (data : PyValue) :
    ((data.isDict && (data.getKey "error").truthy) = true →
      get_external_info data = ⟨data, 502⟩) ∧
    ((data.isDict && (data.getKey "error").truthy) = false →
      get_external_info data = ⟨data, 200⟩) := by
  constructor <;> intro h <;> simp [get_external_info, h]

/-- C8 witness: a payload with a non-empty `error` message is surfaced
as 502. -/
theorem get_external_info_correct_witness :
    get_external_info errPayload = ⟨errPayload, 502⟩ :=
  (get_external_info_correct errPayload).1 (by decide)

/-! ## C9 -/

/-- Fixture note. -/
def sampleNote : Note := ⟨1, 1, "Initial prescription", ts0⟩

/-- C9 counterexample: the empty string is not parseable as an integer, yet
`?medication=` is falsy in Python, so the filter is skipped and the full
list — not the empty list the claim requires for every non-integer id —
is returned. -/
theorem note_get_queryset_claim_counterexample :
    pyInt? "" = none ∧
    note_get_queryset [sampleNote] (some "") = [sampleNote] ∧
    ¬ note_get_queryset [sampleNote] (some "") = [] := by
  refine ⟨rfl, rfl, by decide⟩

/-- C9 (amended): with no `medication` parameter or an empty one the full
note list is returned; a parameter that parses as an integer returns
exactly the notes with that medication id; a non-empty parameter that does
not parse returns the empty list. -/
theorem note_get_queryset_correct (notes : List Note) (p : Option String) :
    (p = none → note_get_queryset notes p = notes) ∧
    (∀ s, p = some s → s.isEmpty = true → note_get_queryset notes p = notes) ∧
    (∀ s mid, p = some s → pyInt? s = some mid →
      ∀ n, n ∈ note_get_queryset notes p ↔ n ∈ notes ∧ (n.medication : Int) = mid) ∧
    (∀ s, p = some s → s.isEmpty = false → pyInt? s = none →
      note_get_queryset notes p = []) := by
  refine ⟨?_, ?_, ?_, ?_⟩
  · intro h
    subst h
    rfl
  · intro s hp hs
    subst hp
    simp [note_get_queryset, hs]
  · intro s mid hp hparse n
    subst hp
    have hs : s.isEmpty = false := by
      rcases h : s.isEmpty with _ | _
      · rfl
      · rw [(String.isEmpty_iff s).mp h] at hparse
        exact absurd hparse (by simp [pyInt?])
    simp [note_get_queryset, hs, hparse, List.mem_filter]
  · intro s hp hs hparse
    subst hp
    simp [note_get_queryset, hs, hparse]

/-- C9 witness: `?medication=1` keeps the fixture note, which references
medication 1. -/
theorem note_get_queryset_correct_witness :
    sampleNote ∈ note_get_queryset [sampleNote] (some "1") := by
  have h := (note_get_queryset_correct [sampleNote] (some "1")).2.2.1 "1" 1 rfl
    (by decide) sampleNote
  exact h.mpr ⟨List.mem_singleton.mpr rfl, by decide⟩

/-! ## C10 -/

/-- C10: the note update handlers answer 405 without consulting the store:
in particular a PUT or PATCH addressed to an id bound to no stored note
still yields 405, never 404, and the response does not depend on the
store, the id or the payload at all. -/
theorem note_update_without_lookup (notes : List Note) (pk : Nat)
    (payload : List (String × String)) :
    ((∀ n ∈ notes, n.id ≠ pk) →
      (note_update notes pk payload).1.status = 405 ∧
      ¬ (note_update notes pk payload).1.status = 404 ∧
      (note_partial_update notes pk payload).1.status = 405 ∧
      ¬ (note_partial_update notes pk payload).1.status = 404) ∧
    (note_update notes pk payload).1 = (note_update [] 0 []).1 ∧
    (note_partial_update notes pk payload).1 = (note_partial_update [] 0 []).1 :=
  ⟨fun _ => ⟨rfl, by simp [note_update], rfl, by simp [note_partial_update]⟩, rfl, rfl⟩

/-- C10 witness: PUT and PATCH on the empty store, where id 1 matches no
note, still answer 405. -/
theorem note_update_without_lookup_witness :
    (note_update [] 1 []).1.status = 405 ∧ ¬ (note_update [] 1 []).1.status = 404 := by
  have h := (note_update_without_lookup [] 1 []).1 (by simp)
  exact ⟨h.1, h.2.1⟩

end Medtracker
